import Mathlib

/-!
Verification of the TranscriptScribe clinical-trial recommendation pipeline.

Shallow embedding of:
  * `backend/adapters/llm/gemini.py`            (`call_llm_json`)
  * `backend/core/services/clinical_trial_service.py`
        (`create_recommended_trials`, `_eligibility_filter_agent`,
         `_relevance_ranking_agent`, `_create_comprehensive_patient_info`)
  * the recommendation-record methods of `backend/adapters/db/supabase.py`
        (`create_transcript_recommendations`, `update_transcript_recommendations`,
         `get_transcript_recommendations`, `_get_trial_uuids_from_external_ids`,
         `upsert_clinical_trial`)

External collaborators (the Gemini SDK, the Supabase client, the trial-search
HTTP adapter) are modelled as oracles: each call site takes its outcome
(`Except PyErr _`) from an environment record, and the embedding reproduces the
Python control flow around those outcomes.  Python run-time values that come
out of `json.loads` are modelled by the `Json` inductive; Python exceptions by
`PyErr` (exception class name plus message).
-/

namespace TranscriptScribe

/-- A Python exception, identified by its class name and its message
(`str(e)`).  The source raises `RuntimeError`, `PatientNotFoundError`, ... ;
collaborator calls may raise anything. -/
structure PyErr where
  cls : String
  msg : String
deriving Repr, DecidableEq

/-- A Python value as produced by `json.loads` (and the Python literals `[]`,
`\x7b\x7d` used by the service): `None`, booleans, numbers (modelled as
integers; no claim involves fractional numbers), strings, lists and dicts.
Dict fields are listed with unique keys, in insertion order. -/
inductive Json where
  | null : Json
  | bool : Bool → Json
  | num : Int → Json
  | str : String → Json
  | arr : List Json → Json
  | obj : List (String × Json) → Json

/-- `isinstance(v, dict)`. -/
def Json.isDict : Json → Bool
  | .obj _ => true
  | _ => false

/-- Python `k in v` for a dict `v`: key membership. -/
def Json.hasKey (v : Json) (k : String) : Bool :=
  match v with
  | .obj fields => fields.any (fun kv => kv.1 == k)
  | _ => false

/-- Python `v[k]` on a dict (only used at call sites guarded by `hasKey`;
returns `null` when the key is absent). -/
def Json.getKey (v : Json) (k : String) : Json :=
  match v with
  | .obj fields =>
    match fields.find? (fun kv => kv.1 == k) with
    | some kv => kv.2
    | none => Json.null
  | _ => Json.null

/-- Python truthiness of a value: `None`, `False`, `0`, `""`, `[]` and `\x7b\x7d`
are falsy, everything else truthy. -/
def pyTruthy : Json → Bool
  | .null => false
  | .bool b => b
  | .num n => n != 0
  | .str s => s != ""
  | .arr elems => !elems.isEmpty
  | .obj fields => !fields.isEmpty

/-- Python `s in v` for a string `s`: element membership for a list, substring
for a string, key membership for a dict.  (For the remaining shapes Python
raises `TypeError: argument of type ... is not iterable`; no claim exercises
those shapes, and the model returns `false` there.) -/
def pyIn (s : String) (v : Json) : Bool :=
  match v with
  | .arr elems =>
    elems.any (fun e => match e with | .str t => s == t | _ => false)
  | .str t => decide (s.toList <:+: t.toList)
  | .obj fields => fields.any (fun kv => kv.1 == s)
  | _ => false

/-! ## Gemini adapter: `call_llm_json` (backend/adapters/llm/gemini.py 104-201)

The SDK call `self.model.generate_content` plus the part-by-part text
extraction is the oracle `generated : Except PyErr String` (error = anything
raised inside the outer `try` before JSON parsing; ok = the extracted
completion text).  `json.loads` is the oracle
`jsonLoads : String → Except String Json` (error = `str` of the
`JSONDecodeError`). -/

/-- The markdown-fence cleanup applied to the completion text before
`json.loads` (gemini.py 179-186): strip, drop a leading three-backtick
`json` fence (7 characters) and a trailing three-backtick fence
(3 characters) once each, strip again. -/
def cleanJsonText (text : String) : String :=
  let t := text.trim
  let t := if t.startsWith "```json" then t.drop 7 else t
  let t := if t.endsWith "```" then t.dropRight 3 else t
  t.trim

/-- `GeminiAdapter.call_llm_json` (gemini.py 104-201).  On a JSON parse
failure the inner handler raises
`RuntimeError("LLM response is not valid JSON: " + str(decodeError))`, which
the outer `except Exception` immediately catches and rewraps as
`RuntimeError("Failed to call Gemini LLM for JSON: " + str(inner))`.  Any
failure of the underlying generate call is likewise rewrapped by the outer
handler. -/
def call_llm_json (generated : Except PyErr String)
    (jsonLoads : String → Except String Json) : Except PyErr Json :=
  match generated with
  | .error e =>
    .error { cls := "RuntimeError",
             msg := "Failed to call Gemini LLM for JSON: " ++ e.msg }
  | .ok rawText =>
    match jsonLoads (cleanJsonText rawText) with
    | .ok value => .ok value
    | .error decodeMsg =>
      .error { cls := "RuntimeError",
               msg := "Failed to call Gemini LLM for JSON: " ++
                      ("LLM response is not valid JSON: " ++ decodeMsg) }

/-! ## Domain objects (backend/domain/patient.py, parsed_transcript.py,
clinical_trial.py) — only the fields the recommendation pipeline reads. -/

/-- A `datetime.date`. -/
structure PyDate where
  year : Int
  month : Int
  day : Int
deriving Repr, DecidableEq

/-- `domain.patient.Patient` (the fields `_create_comprehensive_patient_info`
reads).  Optional string fields keep Python's `None`/empty distinction because
the formatter tests them for truthiness. -/
structure Patient where
  first_name : String := ""
  last_name : String := ""
  date_of_birth : Option PyDate := none
  sex : Option String := none
  city : Option String := none
  state : Option String := none
  zip_code : Option String := none
  country : String := "USA"

/-- `domain.parsed_transcript.ParsedTranscript` (the fields the pipeline
reads).  The constructor coerces absent list fields to `[]`, so list fields
are plain lists here. -/
structure ParsedTranscript where
  conditions : List String := []
  medications : List String := []
  procedures : List String := []
  age : Option Int := none
  sex : Option String := none
  positive_symptoms : List String := []
  negative_symptoms : List String := []
  positive_lab_results : List String := []
  negative_lab_results : List String := []
  positive_imaging_results : List String := []
  negative_imaging_results : List String := []
  past_diagnoses : List String := []
  past_surgeries : List String := []
  family_history : List String := []
  positive_lifestyle_factors : List String := []
  negative_lifestyle_factors : List String := []
  extraction_notes : List String := []

/-- `domain.clinical_trial.ClinicalTrial` (the fields the recommendation
pipeline and the storage upsert read).  Identity is `external_id`. -/
structure ClinicalTrial where
  external_id : String
  brief_title : String := ""
  official_title : String := ""
  status : String := ""
  conditions : List String := []
  brief_summary : Option String := none
  eligibility_criteria : Option String := none

/-! ## Patient-profile formatter
(`_create_comprehensive_patient_info`, clinical_trial_service.py 100-147).

Only the two prioritization computations (lines 111-115) and the rendered
`- Age:` line (line 120) are data-dependent in a way any claim touches; the
rest of the returned string is fixed prose plus comma-joined list fields. -/

/-- Line 112-114: `age = parsed_transcript.age if parsed_transcript.age is not
None else (f"...(patient.date_of_birth.year - 2024) if patient.date_of_birth
else 'Unknown'...")` — rendered as it appears interpolated into the profile
string. -/
def comprehensive_age (patient : Patient) (parsed_transcript : ParsedTranscript) : String :=
  match parsed_transcript.age with
  | some a => toString a
  | none =>
    match patient.date_of_birth with
    | some dob => toString (dob.year - 2024)
    | none => "Unknown"

/-- Line 115: `sex = patient.sex if patient.sex else parsed_transcript.sex`
(Python truthiness: `None` and `""` both fall through to the transcript). -/
def comprehensive_sex (patient : Patient) (parsed_transcript : ParsedTranscript) : Option String :=
  match patient.sex with
  | some s => if s != "" then some s else parsed_transcript.sex
  | none => parsed_transcript.sex

/-- The `- Age: ...` line of the profile string (line 120). -/
def patient_info_age_line (patient : Patient) (parsed_transcript : ParsedTranscript) : String :=
  "- Age: " ++ comprehensive_age patient parsed_transcript

/-! ## Storage model (backend/adapters/db/supabase.py)

The `clinical_trials` table is modelled by the list of its rows' external ids
in insertion order (`upsert` with `on_conflict="external_id"` keeps external
ids unique, so a row's uuid is identified with its external id); the
`transcript_recommendations` row for the transcript under consideration is
modelled by its two stored trial-uuid lists. -/

/-- The database state one `create_recommended_trials` run reads and writes. -/
structure DBState where
  trialsTable : List String
  recs : Option (List String × List String)
deriving Repr, DecidableEq

/-- Effect of a successful `upsert_clinical_trial` (supabase.py 258-306) on
the `clinical_trials` table: insert the row unless its external id is already
present. -/
def upsertTrialRow (table : List String) (external_id : String) : List String :=
  if table.contains external_id then table else table ++ [external_id]

/-- `_get_trial_uuids_from_external_ids` (supabase.py 441-451): `[]` when the
given collection is falsy, otherwise the ids of the table rows whose
`external_id` is `in` the given collection (row order).  The argument is a
`Json` value because the service passes the ranker's output verbatim. -/
def get_trial_uuids_from_external_ids (table : List String) (external_ids : Json) : List String :=
  if pyTruthy external_ids then table.filter (fun t => pyIn t external_ids) else []

/-! ## The two LLM agents (clinical_trial_service.py 149-317)

Each agent builds a prompt (pure string assembly over well-typed inputs — it
cannot raise here) and then runs a `try` whose only raising operation is
`self.llm_adapter.call_llm_json(...)`; that call's outcome is the oracle
argument `llmResult`.  The result type is `Except PyErr _` to represent the
Python raise channel of the agent itself: the trailing `except Exception`
converts every raised error to the documented fallback, so no `.error` is ever
produced. -/

/-- `_eligibility_filter_agent` (lines 149-233): on a usable response (a dict
holding both `eligible_trial_ids` and `uncertain_trial_ids`) returns the two
values verbatim; otherwise, and on any raised error, returns the empty
partition.  `trials` (like the patient and transcript arguments, which are
omitted here) feeds only the prompt: the output ids are never compared
against it. -/
def eligibility_filter_agent (trials : List ClinicalTrial)
    (llmResult : Except PyErr Json) : Except PyErr (Json × Json) :=
  let _trials_text := trials.map (fun t => (t.external_id, t.brief_title, t.eligibility_criteria))
  match llmResult with
  | .ok response =>
    if response.isDict && response.hasKey "eligible_trial_ids" &&
        response.hasKey "uncertain_trial_ids" then
      .ok (response.getKey "eligible_trial_ids", response.getKey "uncertain_trial_ids")
    else
      .ok (Json.arr [], Json.arr [])
  | .error _ => .ok (Json.arr [], Json.arr [])

/-- `_relevance_ranking_agent` (lines 235-317): on a usable response (a dict
holding `ranked_trial_ids`) returns that value verbatim; otherwise, and on
any raised error, returns `trial_ids` unchanged.  `_filtered_trials`
(line 250) feeds only the prompt. -/
def relevance_ranking_agent (trials : List ClinicalTrial) (trial_ids : Json)
    (llmResult : Except PyErr Json) : Except PyErr Json :=
  let _filtered_trials := trials.filter (fun t => pyIn t.external_id trial_ids)
  match llmResult with
  | .ok response =>
    if response.isDict && response.hasKey "ranked_trial_ids" then
      .ok (response.getKey "ranked_trial_ids")
    else
      .ok trial_ids
  | .error _ => .ok trial_ids

/-! ## Recommendation orchestrator
(`create_recommended_trials`, clinical_trial_service.py 20-98)

Collaborator-call outcomes come from an environment record; a run returns its
Python result channel (`Except PyErr Unit`), the database state after the run,
and the trace of collaborator invocations in call order. -/

/-- One collaborator invocation made by a run. -/
inductive Event where
  | classify : Event
  | rank : String → Event
  | upsertTrial : String → Event
  | readRecs : Event
  | writeCreate : Json → Json → Event
  | writeUpdate : Json → Json → Event

/-- Is this event a recommendation-record write (create or update)? -/
def Event.isRecWrite : Event → Bool
  | .writeCreate _ _ => true
  | .writeUpdate _ _ => true
  | _ => false

/-- Is this event an invocation of the eligibility classifier? -/
def Event.isClassify : Event → Bool
  | .classify => true
  | _ => false

/-- Is this event an invocation of the relevance ranker (either category)? -/
def Event.isRank : Event → Bool
  | .rank _ => true
  | _ => false

/-- Is this event an invocation of the relevance ranker for the given
category? -/
def Event.isRankOf (category : String) : Event → Bool
  | .rank c => c == category
  | _ => false

/-- Outcomes of the collaborator calls one run makes.  `getPatientErr` /
`getTranscriptErr` are `some e` when the storage lookup raises (`e` being
e.g. `PatientNotFoundError`); `findTrialsResult` is the trial-search outcome;
`classifyLLM` and `rankLLM category` are the outcomes of the agents'
`call_llm_json` invocations; the `Fails` flags tell which storage calls
raise. -/
structure OrchEnv where
  getPatientErr : Option PyErr := none
  getTranscriptErr : Option PyErr := none
  findTrialsResult : Except PyErr (List ClinicalTrial)
  classifyLLM : Except PyErr Json := Except.error { cls := "RuntimeError", msg := "" }
  rankLLM : String → Except PyErr Json := fun _ => Except.error { cls := "RuntimeError", msg := "" }
  upsertFails : String → Bool := fun _ => false
  getRecsFails : Bool := false
  createRecsFails : Bool := false
  updateRecsFails : Bool := false

/-- The recommendation-record storing block (lines 47-54 for the
empty-candidate branch, lines 88-96 for the main branch — textually duplicated
in the source, identical logic): one `try` around
`get_transcript_recommendations` and the create-vs-update call; any exception
inside it is caught and logged.  A raised read skips the write entirely; the
record only changes when the chosen write call succeeds, and the stored lists
are the uuid resolutions of the given id lists against the `clinical_trials`
table (supabase.py 362-407). -/
def store_transcript_recommendations (env : OrchEnv) (st : DBState)
    (eligible_ids uncertain_ids : Json) : DBState × List Event :=
  let resolved : List String × List String :=
    (get_trial_uuids_from_external_ids st.trialsTable eligible_ids,
     get_trial_uuids_from_external_ids st.trialsTable uncertain_ids)
  if env.getRecsFails then
    (st, [Event.readRecs])
  else
    match st.recs with
    | some _ =>
      if env.updateRecsFails then
        (st, [Event.readRecs, Event.writeUpdate eligible_ids uncertain_ids])
      else
        ({ st with recs := some resolved },
         [Event.readRecs, Event.writeUpdate eligible_ids uncertain_ids])
    | none =>
      if env.createRecsFails then
        (st, [Event.readRecs, Event.writeCreate eligible_ids uncertain_ids])
      else
        ({ st with recs := some resolved },
         [Event.readRecs, Event.writeCreate eligible_ids uncertain_ids])

/-- The per-trial upsert loop (lines 80-84): each upsert failure is caught and
logged, skipping only that trial's row. -/
def upsert_all (env : OrchEnv) (trials : List ClinicalTrial)
    (table : List String) : List String × List Event :=
  match trials with
  | [] => (table, [])
  | t :: rest =>
    let table1 := if env.upsertFails t.external_id then table
                  else upsertTrialRow table t.external_id
    let next := upsert_all env rest table1
    (next.1, Event.upsertTrial t.external_id :: next.2)

/-- Result of one `create_recommended_trials` run. -/
structure RunResult where
  outcome : Except PyErr Unit
  state : DBState
  events : List Event

/-- `ClinicalTrialService.create_recommended_trials` (lines 20-98), over the
call-outcome environment and the starting database state. -/
def create_recommended_trials (env : OrchEnv) (st : DBState) : RunResult :=
  match env.getPatientErr with
  | some e => ⟨.error e, st, []⟩
  | none =>
  match env.getTranscriptErr with
  | some e => ⟨.error e, st, []⟩
  | none =>
  match env.findTrialsResult with
  | .error e => ⟨.error e, st, []⟩
  | .ok initial_trials =>
  if initial_trials.isEmpty then
    let stored := store_transcript_recommendations env st (Json.arr []) (Json.arr [])
    ⟨.ok (), stored.1, stored.2⟩
  else
    match eligibility_filter_agent initial_trials env.classifyLLM with
    | .error e => ⟨.error e, st, [Event.classify]⟩
    | .ok partIds =>
    let eligible_trial_ids := partIds.1
    let uncertain_trial_ids := partIds.2
    let rankedEligResult :=
      if pyTruthy eligible_trial_ids then
        relevance_ranking_agent initial_trials eligible_trial_ids (env.rankLLM "eligible")
      else .ok (Json.arr [])
    let evRankE := if pyTruthy eligible_trial_ids then [Event.rank "eligible"] else []
    match rankedEligResult with
    | .error e => ⟨.error e, st, Event.classify :: evRankE⟩
    | .ok ranked_eligible_trial_ids =>
    let rankedUncResult :=
      if pyTruthy uncertain_trial_ids then
        relevance_ranking_agent initial_trials uncertain_trial_ids (env.rankLLM "uncertain")
      else .ok (Json.arr [])
    let evRankU := if pyTruthy uncertain_trial_ids then [Event.rank "uncertain"] else []
    match rankedUncResult with
    | .error e => ⟨.error e, st, Event.classify :: (evRankE ++ evRankU)⟩
    | .ok ranked_uncertain_trial_ids =>
    let upserted := upsert_all env initial_trials st.trialsTable
    let st2 : DBState := { st with trialsTable := upserted.1 }
    let stored := store_transcript_recommendations env st2
        ranked_eligible_trial_ids ranked_uncertain_trial_ids
    ⟨.ok (), stored.1,
     Event.classify :: (evRankE ++ evRankU ++ upserted.2 ++ stored.2)⟩

/-! ## Concrete fixtures used by counterexamples and witnesses -/

/-- A candidate trial with external id `NCT1`. -/
def exTrialNCT1 : ClinicalTrial := { external_id := "NCT1" }

/-- Environment for a run whose single candidate is `NCT1`, whose classifier
call marks it eligible, and whose eligible-ranking call returns the
hallucinated id `NCTOLD` (a trial stored by an earlier run) ahead of `NCT1`;
every storage call succeeds. -/
def c1Env : OrchEnv := {
  findTrialsResult := Except.ok [exTrialNCT1],
  classifyLLM := Except.ok (Json.obj
    [("eligible_trial_ids", Json.arr [Json.str "NCT1"]),
     ("uncertain_trial_ids", Json.arr [])]),
  rankLLM := fun category =>
    if category == "eligible" then
      Except.ok (Json.obj
        [("ranked_trial_ids", Json.arr [Json.str "NCTOLD", Json.str "NCT1"])])
    else
      Except.ok (Json.obj [("ranked_trial_ids", Json.arr [])]) }

/-- Database state holding a trial `NCTOLD` from an earlier run and no
recommendation record for this transcript. -/
def c1St : DBState := { trialsTable := ["NCTOLD"], recs := none }

/-- Environment where trial search returns no candidates and reading the
existing recommendation record raises. -/
def c2Env : OrchEnv := { findTrialsResult := Except.ok [], getRecsFails := true }

/-- Empty database state. -/
def c2St : DBState := { trialsTable := [], recs := none }

/-- A programming error: neither an LLM call failure nor malformed output. -/
def tyErr : PyErr := { cls := "TypeError", msg := "unsupported operand type" }

/-- A classifier response naming an id outside the candidate set. -/
def c4Resp : Json := Json.obj
  [("eligible_trial_ids", Json.arr [Json.str "NCT-HALLUCINATED"]),
   ("uncertain_trial_ids", Json.arr [])]

/-- The message of a `json.JSONDecodeError` on non-JSON input. -/
def c5DecodeMsg : String := "Expecting value: line 1 column 1 (char 0)"

/-- A `json.loads` oracle that rejects every input with `c5DecodeMsg`. -/
def c5JsonLoads : String → Except String Json := fun _ => Except.error c5DecodeMsg

/-- Environment where trial search returns no candidates and every storage
call succeeds. -/
def c8Env : OrchEnv := { findTrialsResult := Except.ok [] }

/-- Environment with one candidate where both recommendation-record write
paths raise. -/
def c9Env : OrchEnv := {
  findTrialsResult := Except.ok [exTrialNCT1],
  classifyLLM := Except.ok (Json.obj
    [("eligible_trial_ids", Json.arr [Json.str "NCT1"]),
     ("uncertain_trial_ids", Json.arr [])]),
  rankLLM := fun _ => Except.ok (Json.obj [("ranked_trial_ids", Json.arr [Json.str "NCT1"])]),
  createRecsFails := true,
  updateRecsFails := true }

/-- A patient with a recorded date of birth in 1980 and no other data. -/
def c10Patient : Patient := { date_of_birth := some { year := 1980, month := 5, day := 2 } }

/-- A transcript carrying no extracted age. -/
def c10Transcript : ParsedTranscript := {}

/-! ## Helper lemmas -/

/-- The classifier never raises: its `except Exception` converts every raised
error to the fallback. -/
theorem eligibility_filter_agent_total (trials : List ClinicalTrial)
    (llmResult : Except PyErr Json) :
    ∃ p, eligibility_filter_agent trials llmResult = Except.ok p := by
  cases llmResult with
  | error e => exact ⟨_, rfl⟩
  | ok response =>
    unfold eligibility_filter_agent
    dsimp only
    split
    · exact ⟨_, rfl⟩
    · exact ⟨_, rfl⟩

/-- The ranker never raises. -/
theorem relevance_ranking_agent_total (trials : List ClinicalTrial)
    (trial_ids : Json) (llmResult : Except PyErr Json) :
    ∃ r, relevance_ranking_agent trials trial_ids llmResult = Except.ok r := by
  cases llmResult with
  | error e => exact ⟨_, rfl⟩
  | ok response =>
    unfold relevance_ranking_agent
    dsimp only
    split
    · exact ⟨_, rfl⟩
    · exact ⟨_, rfl⟩

/-- Every id resolved by the storage uuid lookup is a row of the
`clinical_trials` table. -/
theorem mem_get_trial_uuids {table : List String} {external_ids : Json} {x : String}
    (h : x ∈ get_trial_uuids_from_external_ids table external_ids) : x ∈ table := by
  unfold get_trial_uuids_from_external_ids at h
  split at h
  · exact (List.mem_filter.mp h).1
  · simp at h

/-- The recommendation-record block never touches the `clinical_trials`
table. -/
theorem store_trialsTable_eq (env : OrchEnv) (st : DBState) (e u : Json) :
    (store_transcript_recommendations env st e u).1.trialsTable = st.trialsTable := by
  unfold store_transcript_recommendations
  dsimp only
  split
  · rfl
  · split
    · split <;> rfl
    · split <;> rfl

/-- The stored record after the recommendation-record block: unchanged, or the
uuid resolutions of the two given lists. -/
theorem store_recs_cases (env : OrchEnv) (st : DBState) (e u : Json) :
    (store_transcript_recommendations env st e u).1.recs = st.recs ∨
    (store_transcript_recommendations env st e u).1.recs =
      some (get_trial_uuids_from_external_ids st.trialsTable e,
            get_trial_uuids_from_external_ids st.trialsTable u) := by
  unfold store_transcript_recommendations
  dsimp only
  split
  · exact Or.inl rfl
  · split
    · split
      · exact Or.inl rfl
      · exact Or.inr rfl
    · split
      · exact Or.inl rfl
      · exact Or.inr rfl

/-- When the read of the existing record raises, the whole block is skipped:
state unchanged, no write attempted. -/
theorem store_getRecsFails (env : OrchEnv) (st : DBState) (e u : Json)
    (h : env.getRecsFails = true) :
    store_transcript_recommendations env st e u = (st, [Event.readRecs]) := by
  unfold store_transcript_recommendations
  rw [h]
  rfl

/-- When the read succeeds and the applicable write succeeds, the stored
record becomes the uuid resolutions of the two given lists. -/
theorem store_write_ok (env : OrchEnv) (st : DBState) (e u : Json)
    (hg : env.getRecsFails = false) (hc : env.createRecsFails = false)
    (hu : env.updateRecsFails = false) :
    (store_transcript_recommendations env st e u).1.recs =
      some (get_trial_uuids_from_external_ids st.trialsTable e,
            get_trial_uuids_from_external_ids st.trialsTable u) := by
  unfold store_transcript_recommendations
  cases h : st.recs <;> simp [h, hg, hc, hu]

/-- When both write paths raise, the stored record is unchanged. -/
theorem store_write_fails (env : OrchEnv) (st : DBState) (e u : Json)
    (hc : env.createRecsFails = true) (hu : env.updateRecsFails = true) :
    (store_transcript_recommendations env st e u).1.recs = st.recs := by
  unfold store_transcript_recommendations
  cases hg : env.getRecsFails <;> cases h : st.recs <;> simp [hg, h, hc, hu]

/-- The events of the recommendation-record block, by case. -/
theorem store_events_cases (env : OrchEnv) (st : DBState) (e u : Json) :
    (store_transcript_recommendations env st e u).2 = [Event.readRecs] ∨
    (store_transcript_recommendations env st e u).2 =
      [Event.readRecs, Event.writeUpdate e u] ∨
    (store_transcript_recommendations env st e u).2 =
      [Event.readRecs, Event.writeCreate e u] := by
  unfold store_transcript_recommendations
  dsimp only
  split
  · exact Or.inl rfl
  · split
    · split
      · exact Or.inr (Or.inl rfl)
      · exact Or.inr (Or.inl rfl)
    · split
      · exact Or.inr (Or.inr rfl)
      · exact Or.inr (Or.inr rfl)

/-- Every event of the upsert loop is a trial upsert. -/
theorem upsert_all_events (env : OrchEnv) (trials : List ClinicalTrial)
    (table : List String) :
    ∀ ev ∈ (upsert_all env trials table).2, ∃ external_id, ev = Event.upsertTrial external_id := by
  induction trials generalizing table with
  | nil => intro ev hev; simp [upsert_all] at hev
  | cons t rest ih =>
    intro ev hev
    unfold upsert_all at hev
    dsimp only at hev
    rcases List.mem_cons.mp hev with h | h
    · exact ⟨t.external_id, h⟩
    · exact ih _ ev h

/-- A raised patient lookup aborts the run unmodified. -/
theorem run_patient_err (env : OrchEnv) (st : DBState) (e : PyErr)
    (hp : env.getPatientErr = some e) :
    create_recommended_trials env st = ⟨Except.error e, st, []⟩ := by
  unfold create_recommended_trials
  rw [hp]

/-- A raised transcript lookup aborts the run unmodified. -/
theorem run_transcript_err (env : OrchEnv) (st : DBState) (e : PyErr)
    (hp : env.getPatientErr = none) (ht : env.getTranscriptErr = some e) :
    create_recommended_trials env st = ⟨Except.error e, st, []⟩ := by
  unfold create_recommended_trials
  rw [hp, ht]

/-- A raised trial search aborts the run unmodified. -/
theorem run_find_err (env : OrchEnv) (st : DBState) (e : PyErr)
    (hp : env.getPatientErr = none) (ht : env.getTranscriptErr = none)
    (hf : env.findTrialsResult = Except.error e) :
    create_recommended_trials env st = ⟨Except.error e, st, []⟩ := by
  unfold create_recommended_trials
  rw [hp, ht, hf]

/-- The empty-candidate branch: the run reduces to the empty
recommendation-record block. -/
theorem run_empty (env : OrchEnv) (st : DBState)
    (hp : env.getPatientErr = none) (ht : env.getTranscriptErr = none)
    (hf : env.findTrialsResult = Except.ok []) :
    create_recommended_trials env st =
      ⟨Except.ok (),
       (store_transcript_recommendations env st (Json.arr []) (Json.arr [])).1,
       (store_transcript_recommendations env st (Json.arr []) (Json.arr [])).2⟩ := by
  unfold create_recommended_trials
  rw [hp, ht, hf]
  rfl

/-- The main branch: with a non-empty candidate list and the two agents
yielding the given partition and rankings, the run classifies, ranks each
truthy partition, upserts every candidate, and hands the ranked lists
verbatim to the recommendation-record block. -/
theorem run_main (env : OrchEnv) (st : DBState) (t0 : ClinicalTrial)
    (ts : List ClinicalTrial)
    (hp : env.getPatientErr = none) (ht : env.getTranscriptErr = none)
    (hf : env.findTrialsResult = Except.ok (t0 :: ts))
    (eIds uIds rE rU : Json)
    (hcl : eligibility_filter_agent (t0 :: ts) env.classifyLLM = Except.ok (eIds, uIds))
    (hrE : (if pyTruthy eIds then
              relevance_ranking_agent (t0 :: ts) eIds (env.rankLLM "eligible")
            else Except.ok (Json.arr [])) = Except.ok rE)
    (hrU : (if pyTruthy uIds then
              relevance_ranking_agent (t0 :: ts) uIds (env.rankLLM "uncertain")
            else Except.ok (Json.arr [])) = Except.ok rU) :
    create_recommended_trials env st =
      ⟨Except.ok (),
       (store_transcript_recommendations env
          { st with trialsTable := (upsert_all env (t0 :: ts) st.trialsTable).1 } rE rU).1,
       Event.classify ::
         ((if pyTruthy eIds then [Event.rank "eligible"] else []) ++
          (if pyTruthy uIds then [Event.rank "uncertain"] else []) ++
          (upsert_all env (t0 :: ts) st.trialsTable).2 ++
          (store_transcript_recommendations env
            { st with trialsTable := (upsert_all env (t0 :: ts) st.trialsTable).1 } rE rU).2)⟩ := by
  unfold create_recommended_trials
  rw [hp, ht, hf]
  dsimp only
  rw [hcl]
  dsimp only
  rw [hrE]
  dsimp only
  rw [hrU]
  rfl

/-- If the record block turned a previously absent record into a stored one,
every stored id is a row of the (unchanged) `clinical_trials` table. -/
theorem store_ids_in_table (env : OrchEnv) (st : DBState) (e u : Json)
    (h0 : st.recs = none) (stored : List String × List String)
    (h : (store_transcript_recommendations env st e u).1.recs = some stored) :
    ∀ x, (x ∈ stored.1 ∨ x ∈ stored.2) →
      x ∈ (store_transcript_recommendations env st e u).1.trialsTable := by
  rcases store_recs_cases env st e u with hc | hc
  · rw [hc, h0] at h
    exact Option.noConfusion h
  · rw [hc] at h
    injection h with h2
    subst h2
    intro x hx
    rw [store_trialsTable_eq]
    rcases hx with hx | hx
    · exact mem_get_trial_uuids hx
    · exact mem_get_trial_uuids hx

/-- The upsert loop contributes nothing to a count of non-upsert events. -/
theorem upsert_all_countP_zero (env : OrchEnv) (trials : List ClinicalTrial)
    (table : List String) (p : Event → Bool)
    (hp : ∀ external_id, p (Event.upsertTrial external_id) = false) :
    ((upsert_all env trials table).2.countP p) = 0 := by
  rw [List.countP_eq_zero]
  intro ev hev
  obtain ⟨external_id, h⟩ := upsert_all_events env trials table ev hev
  rw [h]
  simp [hp external_id]

/-- The record block contributes nothing to a count of events other than the
read and the two writes. -/
theorem store_events_countP_zero (env : OrchEnv) (st : DBState) (e u : Json)
    (p : Event → Bool)
    (h1 : p Event.readRecs = false) (h2 : p (Event.writeUpdate e u) = false)
    (h3 : p (Event.writeCreate e u) = false) :
    ((store_transcript_recommendations env st e u).2.countP p) = 0 := by
  rcases store_events_cases env st e u with h | h | h <;> rw [h] <;>
    simp [List.countP_cons, h1, h2, h3]

/-- The orchestrator's guarded ranking step never raises. -/
theorem rank_step_total (trials : List ClinicalTrial) (ids : Json)
    (llmResult : Except PyErr Json) :
    ∃ r, (if pyTruthy ids then relevance_ranking_agent trials ids llmResult
          else Except.ok (Json.arr [])) = Except.ok r := by
  by_cases hb : pyTruthy ids = true
  · rw [if_pos hb]
    exact relevance_ranking_agent_total trials ids llmResult
  · rw [if_neg hb]
    exact ⟨_, rfl⟩

/-! ## Claim theorems -/

/-- C3 (counterexample): a `TypeError` — neither an LLM call failure nor
malformed LLM output — raised at the LLM call site inside the Eligibility
Classifier or the Relevance Ranker does NOT propagate: both agents convert it
to their fallback result, contradicting the claim that only the two
anticipated judgment-call error kinds are converted. -/
theorem c3_claim_counterexample :
    eligibility_filter_agent [exTrialNCT1] (Except.error tyErr) =
      Except.ok (Json.arr [], Json.arr []) ∧
    eligibility_filter_agent [exTrialNCT1] (Except.error tyErr) ≠
      Except.error tyErr ∧
    relevance_ranking_agent [exTrialNCT1] (Json.arr [Json.str "NCT1"])
      (Except.error tyErr) = Except.ok (Json.arr [Json.str "NCT1"]) ∧
    relevance_ranking_agent [exTrialNCT1] (Json.arr [Json.str "NCT1"])
      (Except.error tyErr) ≠ Except.error tyErr :=
  ⟨rfl, fun h => Except.noConfusion h, rfl, fun h => Except.noConfusion h⟩

/-- C3 (amended): every error raised by the LLM call inside the Eligibility
Classifier or the Relevance Ranker — anticipated or not — is caught by the
agents' blanket `except Exception` and converted to the fallback result
(empty partition, resp. the input ids unchanged); no such error reaches the
caller of `createRecommendedTrials`.  (Errors raised before the `try`, while
building the prompt, would propagate, but prompt building is pure string
assembly over well-typed inputs.) -/
theorem c3_amended_blanket_catch :
    ∀ (e : PyErr) (trials : List ClinicalTrial) (trial_ids : Json),
      eligibility_filter_agent trials (Except.error e) =
        Except.ok (Json.arr [], Json.arr []) ∧
      relevance_ranking_agent trials trial_ids (Except.error e) =
        Except.ok trial_ids :=
  fun _ _ _ => ⟨rfl, rfl⟩

/-- C4 (counterexample): the Eligibility Classifier returns the LLM response
lists verbatim, so a response naming `NCT-HALLUCINATED` — which is not the
external identifier of any trial in the candidate set `[NCT1]` — appears in
the returned eligible list, contradicting the claimed subset property. -/
theorem c4_claim_counterexample :
    eligibility_filter_agent [exTrialNCT1] (Except.ok c4Resp) =
      Except.ok (Json.arr [Json.str "NCT-HALLUCINATED"], Json.arr []) ∧
    "NCT-HALLUCINATED" ∉ [exTrialNCT1].map ClinicalTrial.external_id :=
  ⟨rfl, by decide⟩

/-- C4 (amended): the Eligibility Classifier performs no membership check of
the response ids against the candidate set: whenever the response is a dict
with both expected keys, the two values pass through verbatim, whatever ids
they contain and whatever the candidate set. -/
theorem c4_amended_verbatim_passthrough :
    ∀ (trials : List ClinicalTrial) (e u : Json),
      eligibility_filter_agent trials
        (Except.ok (Json.obj [("eligible_trial_ids", e), ("uncertain_trial_ids", u)])) =
      Except.ok (e, u) :=
  fun _ _ _ => rfl

/-- C5 (counterexample): on a completion that fails to parse, `call_llm_json`
raises `RuntimeError` — not a `MalformedLLMOutput` error — whose message wraps
the JSON decoder message (not the raw completion text), and an LLM call
failure is also raised as `RuntimeError` — not `LLMCallFailed` — so the two
failure kinds share one exception class. -/
theorem c5_claim_counterexample :
    call_llm_json (Except.ok "this is not json") c5JsonLoads =
      Except.error
        { cls := "RuntimeError",
          msg := "Failed to call Gemini LLM for JSON: LLM response is not valid JSON: Expecting value: line 1 column 1 (char 0)" } ∧
    call_llm_json (Except.error { cls := "ConnectionError", msg := "network unreachable" })
        c5JsonLoads =
      Except.error
        { cls := "RuntimeError",
          msg := "Failed to call Gemini LLM for JSON: network unreachable" } ∧
    ("RuntimeError" : String) ≠ "MalformedLLMOutput" ∧
    ("RuntimeError" : String) ≠ "LLMCallFailed" :=
  ⟨rfl, rfl, by decide, by decide⟩

/-- C5 (amended): `call_llm_json` raises `RuntimeError` for both failure
kinds: a parse failure is wrapped as `Failed to call Gemini LLM for JSON: LLM
response is not valid JSON: <decoder message>` (the raw completion text is
only logged, not attached), and an LLM call failure as `Failed to call Gemini
LLM for JSON: <error message>`; the two are distinguishable only by message
content, not by exception class. -/
theorem c5_amended_runtime_error_both_kinds :
    (∀ (e : PyErr) (jsonLoads : String → Except String Json),
        call_llm_json (Except.error e) jsonLoads =
          Except.error { cls := "RuntimeError",
                         msg := "Failed to call Gemini LLM for JSON: " ++ e.msg }) ∧
    (∀ (raw : String) (jsonLoads : String → Except String Json) (decodeMsg : String),
        jsonLoads (cleanJsonText raw) = Except.error decodeMsg →
        call_llm_json (Except.ok raw) jsonLoads =
          Except.error { cls := "RuntimeError",
                         msg := "Failed to call Gemini LLM for JSON: " ++
                                ("LLM response is not valid JSON: " ++ decodeMsg) }) := by
  constructor
  · intro e jsonLoads
    rfl
  · intro raw jsonLoads decodeMsg h
    unfold call_llm_json
    dsimp only
    rw [h]

/-- C5 (witness): the amended statement at a concrete non-JSON completion. -/
theorem c5_amended_witness :
    call_llm_json (Except.ok "oops") c5JsonLoads =
      Except.error { cls := "RuntimeError",
                     msg := "Failed to call Gemini LLM for JSON: " ++
                            ("LLM response is not valid JSON: " ++ c5DecodeMsg) } :=
  c5_amended_runtime_error_both_kinds.2 "oops" c5JsonLoads c5DecodeMsg rfl

/-- C6: the Eligibility Classifier returns the empty partition exactly when
the response is unusable — the LLM call raised, or the parsed value is not a
dict carrying both `eligible_trial_ids` and `uncertain_trial_ids` — and
otherwise returns the response's two id lists verbatim; it never raises, so a
failed classification cannot abort the recommendation run. -/
theorem c6_classifier_fallback :
    (∀ (trials : List ClinicalTrial) (e : PyErr),
        eligibility_filter_agent trials (Except.error e) =
          Except.ok (Json.arr [], Json.arr [])) ∧
    (∀ (trials : List ClinicalTrial) (response : Json),
        (response.isDict && response.hasKey "eligible_trial_ids" &&
          response.hasKey "uncertain_trial_ids") = false →
        eligibility_filter_agent trials (Except.ok response) =
          Except.ok (Json.arr [], Json.arr [])) ∧
    (∀ (trials : List ClinicalTrial) (response : Json),
        (response.isDict && response.hasKey "eligible_trial_ids" &&
          response.hasKey "uncertain_trial_ids") = true →
        eligibility_filter_agent trials (Except.ok response) =
          Except.ok (response.getKey "eligible_trial_ids",
                     response.getKey "uncertain_trial_ids")) ∧
    (∀ (trials : List ClinicalTrial) (llmResult : Except PyErr Json),
        ∃ p, eligibility_filter_agent trials llmResult = Except.ok p) := by
  refine ⟨fun _ _ => rfl, ?_, ?_, eligibility_filter_agent_total⟩
  · intro trials response h
    unfold eligibility_filter_agent
    dsimp only
    rw [h]
    rfl
  · intro trials response h
    unfold eligibility_filter_agent
    dsimp only
    rw [h]
    rfl

/-- C6 (witness): a non-dict response yields the empty partition. -/
theorem c6_witness :
    eligibility_filter_agent [exTrialNCT1] (Except.ok (Json.str "oops")) =
      Except.ok (Json.arr [], Json.arr []) :=
  c6_classifier_fallback.2.1 [exTrialNCT1] (Json.str "oops") rfl

/-- C7: for every non-empty (truthy) `subset_ids`, if the ranking LLM call
raises any error, or its response is not a dict or lacks `ranked_trial_ids`,
the Relevance Ranker returns `subset_ids` unchanged in its original input
order, rather than raising. -/
theorem c7_ranker_identity_fallback :
    (∀ (trials : List ClinicalTrial) (subset_ids : Json) (e : PyErr),
        pyTruthy subset_ids = true →
        relevance_ranking_agent trials subset_ids (Except.error e) =
          Except.ok subset_ids) ∧
    (∀ (trials : List ClinicalTrial) (subset_ids : Json) (response : Json),
        pyTruthy subset_ids = true →
        (response.isDict && response.hasKey "ranked_trial_ids") = false →
        relevance_ranking_agent trials subset_ids (Except.ok response) =
          Except.ok subset_ids) := by
  constructor
  · intro trials subset_ids e _
    rfl
  · intro trials subset_ids response _ h
    unfold relevance_ranking_agent
    dsimp only
    rw [h]
    rfl

/-- C7 (witness): three-elsewhere-identical ids and a malformed ranking
response yield the ids back in input order. -/
theorem c7_witness :
    relevance_ranking_agent [exTrialNCT1] (Json.arr [Json.str "NCT1"])
      (Except.ok (Json.str "malformed")) =
      Except.ok (Json.arr [Json.str "NCT1"]) :=
  c7_ranker_identity_fallback.2 [exTrialNCT1] (Json.arr [Json.str "NCT1"])
    (Json.str "malformed") rfl rfl

/-- C10: the transcript-extracted age always takes precedence over the
patient record's date of birth; only with no transcript age is the date of
birth consulted, and then the Age line renders `date_of_birth.year - 2024` —
non-positive for any birth year up to 2024 — not an elapsed-years age;
with neither, `Unknown` is rendered. -/
theorem c10_age_precedence_and_bug :
    (∀ (patient : Patient) (t : ParsedTranscript) (a : Int),
        t.age = some a → comprehensive_age patient t = toString a) ∧
    (∀ (patient : Patient) (t : ParsedTranscript) (dob : PyDate),
        t.age = none → patient.date_of_birth = some dob →
        comprehensive_age patient t = toString (dob.year - 2024) ∧
        patient_info_age_line patient t = "- Age: " ++ toString (dob.year - 2024)) ∧
    (∀ (patient : Patient) (t : ParsedTranscript) (dob : PyDate),
        t.age = none → patient.date_of_birth = some dob → dob.year ≤ 2024 →
        dob.year - 2024 ≤ 0) ∧
    (∀ (patient : Patient) (t : ParsedTranscript),
        t.age = none → patient.date_of_birth = none →
        comprehensive_age patient t = "Unknown") := by
  refine ⟨?_, ?_, ?_, ?_⟩
  · intro p t a h
    unfold comprehensive_age
    rw [h]
  · intro p t dob h1 h2
    constructor
    · unfold comprehensive_age
      rw [h1, h2]
    · unfold patient_info_age_line comprehensive_age
      rw [h1, h2]
  · intro p t dob h1 h2 h3
    omega
  · intro p t h1 h2
    unfold comprehensive_age
    rw [h1, h2]

/-- C10 (witness): a 1980 date of birth with no transcript age renders
`- Age: -44`. -/
theorem c10_witness :
    comprehensive_age c10Patient c10Transcript = toString ((1980 : Int) - 2024) ∧
    patient_info_age_line c10Patient c10Transcript =
      "- Age: " ++ toString ((1980 : Int) - 2024) :=
  c10_age_precedence_and_bug.2.1 c10Patient c10Transcript
    { year := 1980, month := 5, day := 2 } rfl rfl

/-- C1 (counterexample): with one candidate `NCT1` and the ranker answering
`["NCTOLD", "NCT1"]`, where `NCTOLD` is a trial stored by an earlier run, the
persisted ranked-eligible list contains `NCTOLD`, an id outside the candidate
set — the orchestrator never resolves ranked ids against the candidate
list. -/
theorem c1_claim_counterexample :
    (create_recommended_trials c1Env c1St).state.recs =
      some (["NCTOLD", "NCT1"], []) ∧
    "NCTOLD" ∉ [exTrialNCT1].map ClinicalTrial.external_id :=
  ⟨rfl, by decide⟩

/-- C1 (amended): the orchestrator passes the ranked id lists verbatim to the
recommendation write; the storage adapter's uuid lookup silently drops ids
matching no stored trial but keeps any id already in the `clinical_trials`
table, so (for a transcript with no prior record) every persisted ranked id is
a row of the trials table as of the write — candidates upserted this run plus
trials stored by earlier runs — not necessarily a member of this run's
candidate set. -/
theorem c1_amended_ids_from_table (env : OrchEnv) (st : DBState)
    (h0 : st.recs = none) (stored : List String × List String)
    (h : (create_recommended_trials env st).state.recs = some stored) :
    ∀ x, (x ∈ stored.1 ∨ x ∈ stored.2) →
      x ∈ (create_recommended_trials env st).state.trialsTable := by
  cases hp : env.getPatientErr with
  | some e =>
    rw [run_patient_err env st e hp] at h
    dsimp only at h
    rw [h0] at h
    exact Option.noConfusion h
  | none =>
  cases ht : env.getTranscriptErr with
  | some e =>
    rw [run_transcript_err env st e hp ht] at h
    dsimp only at h
    rw [h0] at h
    exact Option.noConfusion h
  | none =>
  cases hf : env.findTrialsResult with
  | error e =>
    rw [run_find_err env st e hp ht hf] at h
    dsimp only at h
    rw [h0] at h
    exact Option.noConfusion h
  | ok initial_trials =>
  cases initial_trials with
  | nil =>
    rw [run_empty env st hp ht hf] at h ⊢
    exact store_ids_in_table env st (Json.arr []) (Json.arr []) h0 stored h
  | cons t0 ts =>
    obtain ⟨⟨eIds, uIds⟩, hcl⟩ :=
      eligibility_filter_agent_total (t0 :: ts) env.classifyLLM
    obtain ⟨rE, hrE⟩ := rank_step_total (t0 :: ts) eIds (env.rankLLM "eligible")
    obtain ⟨rU, hrU⟩ := rank_step_total (t0 :: ts) uIds (env.rankLLM "uncertain")
    rw [run_main env st t0 ts hp ht hf eIds uIds rE rU hcl hrE hrU] at h ⊢
    exact store_ids_in_table env
      { st with trialsTable := (upsert_all env (t0 :: ts) st.trialsTable).1 }
      rE rU h0 stored h

/-- C1 (witness): in the counterexample run the persisted id `NCTOLD` is
indeed a row of the trials table after the run. -/
theorem c1_amended_witness :
    "NCTOLD" ∈ (create_recommended_trials c1Env c1St).state.trialsTable :=
  c1_amended_ids_from_table c1Env c1St rfl (["NCTOLD", "NCT1"], []) rfl
    "NCTOLD" (Or.inl (by decide))

/-- C2 (counterexample): when reading the existing recommendation record
raises, no recommendation-record write happens at all in that run (the claim
asserts the write still occurs exactly once, defaulting to create): the run
returns successfully with zero write calls and an unchanged record. -/
theorem c2_claim_counterexample :
    (create_recommended_trials c2Env c2St).outcome = Except.ok () ∧
    (create_recommended_trials c2Env c2St).events.countP Event.isRecWrite = 0 ∧
    (create_recommended_trials c2Env c2St).state.recs = none :=
  ⟨rfl, rfl, rfl⟩

/-- C2 (amended): if reading the existing recommendation record raises, the
surrounding handler catches the error: the run still returns successfully,
but no recommendation-record write (create or update) is attempted and the
stored record is left unchanged — the run performs zero record writes, not
one. -/
theorem c2_amended_read_failure_skips_write (env : OrchEnv) (st : DBState)
    (ts : List ClinicalTrial)
    (hp : env.getPatientErr = none) (ht : env.getTranscriptErr = none)
    (hf : env.findTrialsResult = Except.ok ts) (hg : env.getRecsFails = true) :
    (create_recommended_trials env st).outcome = Except.ok () ∧
    (create_recommended_trials env st).events.countP Event.isRecWrite = 0 ∧
    (create_recommended_trials env st).state.recs = st.recs := by
  cases ts with
  | nil =>
    rw [run_empty env st hp ht hf,
        store_getRecsFails env st (Json.arr []) (Json.arr []) hg]
    exact ⟨rfl, rfl, rfl⟩
  | cons t0 rest =>
    obtain ⟨⟨eIds, uIds⟩, hcl⟩ :=
      eligibility_filter_agent_total (t0 :: rest) env.classifyLLM
    obtain ⟨rE, hrE⟩ := rank_step_total (t0 :: rest) eIds (env.rankLLM "eligible")
    obtain ⟨rU, hrU⟩ := rank_step_total (t0 :: rest) uIds (env.rankLLM "uncertain")
    rw [run_main env st t0 rest hp ht hf eIds uIds rE rU hcl hrE hrU,
        store_getRecsFails env _ rE rU hg]
    refine ⟨rfl, ?_, rfl⟩
    have hu0 : ((upsert_all env (t0 :: rest) st.trialsTable).2.countP
        Event.isRecWrite) = 0 :=
      upsert_all_countP_zero env (t0 :: rest) st.trialsTable Event.isRecWrite
        (fun _ => rfl)
    cases hbE : pyTruthy eIds <;> cases hbU : pyTruthy uIds <;>
      simp [hbE, hbU, List.countP_cons, List.countP_append, Event.isRecWrite, hu0]

/-- C2 (witness): the amended statement at the counterexample run. -/
theorem c2_amended_witness :
    (create_recommended_trials c2Env c2St).outcome = Except.ok () ∧
    (create_recommended_trials c2Env c2St).events.countP Event.isRecWrite = 0 ∧
    (create_recommended_trials c2Env c2St).state.recs = c2St.recs :=
  c2_amended_read_failure_skips_write c2Env c2St [] rfl rfl rfl rfl

/-- C8: with an empty candidate list and working storage, the run persists a
recommendation record with empty eligible and uncertain lists (create or
update), terminates successfully, and never invokes the classifier or the
ranker; moreover, in any run, an empty eligible partition generates no
eligible-ranking call and an empty uncertain partition no uncertain-ranking
call. -/
theorem c8_empty_short_circuit :
    (∀ (env : OrchEnv) (st : DBState),
        env.getPatientErr = none → env.getTranscriptErr = none →
        env.findTrialsResult = Except.ok [] →
        env.getRecsFails = false → env.createRecsFails = false →
        env.updateRecsFails = false →
        (create_recommended_trials env st).outcome = Except.ok () ∧
        (create_recommended_trials env st).state.recs = some ([], []) ∧
        (create_recommended_trials env st).events.countP Event.isClassify = 0 ∧
        (create_recommended_trials env st).events.countP Event.isRank = 0) ∧
    (∀ (env : OrchEnv) (st : DBState) (t0 : ClinicalTrial)
        (ts : List ClinicalTrial) (uIds : Json),
        env.getPatientErr = none → env.getTranscriptErr = none →
        env.findTrialsResult = Except.ok (t0 :: ts) →
        eligibility_filter_agent (t0 :: ts) env.classifyLLM =
          Except.ok (Json.arr [], uIds) →
        (create_recommended_trials env st).events.countP
          (Event.isRankOf "eligible") = 0) ∧
    (∀ (env : OrchEnv) (st : DBState) (t0 : ClinicalTrial)
        (ts : List ClinicalTrial) (eIds : Json),
        env.getPatientErr = none → env.getTranscriptErr = none →
        env.findTrialsResult = Except.ok (t0 :: ts) →
        eligibility_filter_agent (t0 :: ts) env.classifyLLM =
          Except.ok (eIds, Json.arr []) →
        (create_recommended_trials env st).events.countP
          (Event.isRankOf "uncertain") = 0) := by
  refine ⟨?_, ?_, ?_⟩
  · intro env st hp ht hf hg hc hu
    rw [run_empty env st hp ht hf]
    refine ⟨rfl, ?_, ?_, ?_⟩
    · exact store_write_ok env st (Json.arr []) (Json.arr []) hg hc hu
    · exact store_events_countP_zero env st (Json.arr []) (Json.arr [])
        Event.isClassify rfl rfl rfl
    · exact store_events_countP_zero env st (Json.arr []) (Json.arr [])
        Event.isRank rfl rfl rfl
  · intro env st t0 ts uIds hp ht hf hcl
    obtain ⟨rU, hrU⟩ := rank_step_total (t0 :: ts) uIds (env.rankLLM "uncertain")
    rw [run_main env st t0 ts hp ht hf (Json.arr []) uIds (Json.arr []) rU hcl rfl hrU]
    have hu0 : ((upsert_all env (t0 :: ts) st.trialsTable).2.countP
        (Event.isRankOf "eligible")) = 0 :=
      upsert_all_countP_zero env (t0 :: ts) st.trialsTable
        (Event.isRankOf "eligible") (fun _ => rfl)
    have hs0 : ((store_transcript_recommendations env
        { st with trialsTable := (upsert_all env (t0 :: ts) st.trialsTable).1 }
        (Json.arr []) rU).2.countP (Event.isRankOf "eligible")) = 0 :=
      store_events_countP_zero _ _ _ _ (Event.isRankOf "eligible") rfl rfl rfl
    cases hbU : pyTruthy uIds <;>
      simp [hbU, List.countP_cons, List.countP_append, Event.isRankOf, hu0, hs0,
            show pyTruthy (Json.arr []) = false from rfl]
  · intro env st t0 ts eIds hp ht hf hcl
    obtain ⟨rE, hrE⟩ := rank_step_total (t0 :: ts) eIds (env.rankLLM "eligible")
    rw [run_main env st t0 ts hp ht hf eIds (Json.arr []) rE (Json.arr []) hcl hrE rfl]
    have hu0 : ((upsert_all env (t0 :: ts) st.trialsTable).2.countP
        (Event.isRankOf "uncertain")) = 0 :=
      upsert_all_countP_zero env (t0 :: ts) st.trialsTable
        (Event.isRankOf "uncertain") (fun _ => rfl)
    have hs0 : ((store_transcript_recommendations env
        { st with trialsTable := (upsert_all env (t0 :: ts) st.trialsTable).1 }
        rE (Json.arr [])).2.countP (Event.isRankOf "uncertain")) = 0 :=
      store_events_countP_zero _ _ _ _ (Event.isRankOf "uncertain") rfl rfl rfl
    cases hbE : pyTruthy eIds <;>
      simp [hbE, List.countP_cons, List.countP_append, Event.isRankOf, hu0, hs0,
            show pyTruthy (Json.arr []) = false from rfl]

/-- C8 (witness): the empty-candidate short-circuit at a concrete run. -/
theorem c8_witness :
    (create_recommended_trials c8Env c2St).outcome = Except.ok () ∧
    (create_recommended_trials c8Env c2St).state.recs = some ([], []) ∧
    (create_recommended_trials c8Env c2St).events.countP Event.isClassify = 0 ∧
    (create_recommended_trials c8Env c2St).events.countP Event.isRank = 0 :=
  c8_empty_short_circuit.1 c8Env c2St rfl rfl rfl rfl rfl rfl

/-- C9: if both recommendation-record write paths raise, the run still
returns successfully (`None`) with the stored record unchanged — the caller
observes success although no recommendation record was written or updated. -/
theorem c9_write_failure_swallowed (env : OrchEnv) (st : DBState)
    (ts : List ClinicalTrial)
    (hp : env.getPatientErr = none) (ht : env.getTranscriptErr = none)
    (hf : env.findTrialsResult = Except.ok ts)
    (hc : env.createRecsFails = true) (hu : env.updateRecsFails = true) :
    (create_recommended_trials env st).outcome = Except.ok () ∧
    (create_recommended_trials env st).state.recs = st.recs := by
  cases ts with
  | nil =>
    rw [run_empty env st hp ht hf]
    exact ⟨rfl, store_write_fails env st (Json.arr []) (Json.arr []) hc hu⟩
  | cons t0 rest =>
    obtain ⟨⟨eIds, uIds⟩, hcl⟩ :=
      eligibility_filter_agent_total (t0 :: rest) env.classifyLLM
    obtain ⟨rE, hrE⟩ := rank_step_total (t0 :: rest) eIds (env.rankLLM "eligible")
    obtain ⟨rU, hrU⟩ := rank_step_total (t0 :: rest) uIds (env.rankLLM "uncertain")
    rw [run_main env st t0 rest hp ht hf eIds uIds rE rU hcl hrE hrU]
    exact ⟨rfl, store_write_fails env _ rE rU hc hu⟩

/-- C9 (witness): a run with one candidate and both write paths raising still
returns successfully with no record stored. -/
theorem c9_witness :
    (create_recommended_trials c9Env c2St).outcome = Except.ok () ∧
    (create_recommended_trials c9Env c2St).state.recs = c2St.recs :=
  c9_write_failure_swallowed c9Env c2St [exTrialNCT1] rfl rfl rfl rfl rfl

end TranscriptScribe
